import Mathlib

/-!
Shallow embedding of the PantryChef recommendation & matching engine
(`app/services/recommendation.py` together with the models it reads from
`app/models/ingredient.py`, `app/models/recipe.py` and the schemas in
`app/schemas/common.py`).

Database rows are embedded as structures; the pantry snapshot and the
expiring-soon snapshot are `Finset ℤ` of ingredient ids, exactly the
`set[int]` values the service receives from `get_user_pantry_ingredient_ids`
and `get_expiring_ingredient_ids`.  Python `float` percentages are embedded
as exact rationals; `round(x, 1)` is embedded as round-half-to-even at one
decimal, which agrees with the Python builtin round away from representation noise.
-/

set_option maxRecDepth 2048

namespace PantryChef

/-- Embedding of `app/models/ingredient.py`: the `Ingredient` ORM model (the columns the
recommendation engine reads). -/
structure Ingredient where
  id : ℤ
  name : String
  category : String
  is_vegetarian : Bool
  is_vegan : Bool
  is_gluten_free : Bool
  allergens : Option String
  deriving DecidableEq

/-- Embedding of `Ingredient.get_allergen_list`: split the comma-separated allergen column,
drop blank entries, strip and lowercase each tag.  `if not self.allergens`
is Python truthiness: `None` and the empty string both give `[]`. -/
def Ingredient.get_allergen_list (i : Ingredient) : List String :=
  match i.allergens with
  | none => []
  | some s =>
      if s = "" then []
      else ((s.splitOn ",").filter (fun a => a.trim ≠ "")).map
        (fun a => a.trim.toLower)

/-- Embedding of `app/schemas/ingredient.py`: the `IngredientRead` response schema. -/
structure IngredientRead where
  name : String
  category : String
  id : ℤ
  is_vegetarian : Bool
  is_vegan : Bool
  is_gluten_free : Bool
  allergens : Option String
  deriving DecidableEq

/-- Embedding of `IngredientRead.model_validate`: copy the ORM columns into the
response schema. -/
def IngredientRead.model_validate (i : Ingredient) : IngredientRead :=
  { name := i.name
    category := i.category
    id := i.id
    is_vegetarian := i.is_vegetarian
    is_vegan := i.is_vegan
    is_gluten_free := i.is_gluten_free
    allergens := i.allergens }

/-- Embedding of `app/models/recipe.py`: the `RecipeIngredient` association row, with its
`ingredient` relationship loaded (the service always loads it via
`selectinload`).  The SQLAlchemy relationship joins on
`ingredient_id == ingredients.id`, so the foreign-key column of a loaded row
is the primary key of its related ingredient; the embedding states that invariant
by defining `ingredient_id` as a projection. -/
structure RecipeIngredient where
  recipe_id : ℤ
  quantity : Option String
  unit : Option String
  optional : Bool
  ingredient : Ingredient
  deriving DecidableEq

/-- The `ingredient_id` foreign-key column of a loaded association row. -/
def RecipeIngredient.ingredient_id (ri : RecipeIngredient) : ℤ :=
  ri.ingredient.id

/-- Embedding of `app/models/recipe.py`: the `Recipe` ORM model (the columns the engine
reads), with its `recipe_ingredients` relationship loaded. -/
structure Recipe where
  id : ℤ
  title : String
  description : Option String
  prep_time : Option ℤ
  cook_time : Option ℤ
  difficulty_level : Option String
  servings : Option ℤ
  image_url : Option String
  recipe_ingredients : List RecipeIngredient
  deriving DecidableEq

/-- Embedding of `app/schemas/common.py`: the `RecipeMatch` response schema. -/
structure RecipeMatch where
  id : ℤ
  title : String
  description : Option String
  prep_time : Option ℤ
  cook_time : Option ℤ
  difficulty_level : Option String
  servings : Option ℤ
  image_url : Option String
  match_percentage : ℚ
  matched_ingredients : ℕ
  total_required_ingredients : ℕ
  missing_ingredients : List IngredientRead
  uses_expiring_ingredients : Option ℕ
  deriving DecidableEq

/-- Embedding of `app/schemas/common.py`: the `ShoppingListItem` response schema. -/
structure ShoppingListItem where
  ingredient : IngredientRead
  quantity : Option String
  unit : Option String
  deriving DecidableEq

/-- Embedding of `app/schemas/common.py`: the `ShoppingList` response schema. -/
structure ShoppingList where
  recipe_id : ℤ
  recipe_title : String
  missing_items : List ShoppingListItem
  total_missing : ℕ
  deriving DecidableEq

/-- Embedding of the checks one non-optional row undergoes inside the `for ri in recipe_ingredients`
loop of `_check_dietary_compatibility` (lines 44-63): the vegetarian, vegan
and gluten-free flag checks followed by the allergen-membership check against
the lowercased exclusion list. -/
def dietaryRowOk (vegetarian vegan gluten_free : Bool)
    (exclude_allergens_lower : List String) (ingredient : Ingredient) : Bool :=
  if vegetarian && !ingredient.is_vegetarian then false
  else if vegan && !ingredient.is_vegan then false
  else if gluten_free && !ingredient.is_gluten_free then false
  else if !exclude_allergens_lower.isEmpty &&
      ingredient.get_allergen_list.any
        (fun allergen => exclude_allergens_lower.contains allergen) then false
  else true

/-- Embedding of `_check_dietary_compatibility` (lines 16-65): lowercase the exclusion
list (Python `exclude_allergens or []` maps `None` to `[]`), then scan the
rows in order, skipping optional rows and returning `False` at the first
non-optional row that fails a check. -/
def check_dietary_compatibility (recipe_ingredients : List RecipeIngredient)
    (vegetarian vegan gluten_free : Bool)
    (exclude_allergens : Option (List String)) : Bool :=
  let exclude_allergens_lower := (exclude_allergens.getD []).map String.toLower
  go exclude_allergens_lower recipe_ingredients
where
  go (exclude_allergens_lower : List String) :
      List RecipeIngredient → Bool
    | [] => true
    | ri :: rest =>
        if ri.optional then go exclude_allergens_lower rest
        else if dietaryRowOk vegetarian vegan gluten_free
            exclude_allergens_lower ri.ingredient then
          go exclude_allergens_lower rest
        else false

/-- Round-half-to-even to the nearest integer, the rule of the Python builtin
`round`. -/
def roundHalfEven (q : ℚ) : ℤ :=
  let f := ⌊q⌋
  let r := q - (f : ℚ)
  if r < 1 / 2 then f
  else if 1 / 2 < r then f + 1
  else if f % 2 = 0 then f else f + 1

/-- Embedding of Python `round(x, 1)`: round to one decimal place. -/
def pyRound1 (q : ℚ) : ℚ :=
  (roundHalfEven (q * 10) : ℚ) / 10

/-- Lines 177-179: the required (non-optional) rows of a recipe. -/
def requiredIngredients (recipe : Recipe) : List RecipeIngredient :=
  recipe.recipe_ingredients.filter (fun ri => !ri.optional)

/-- The per-recipe quantities computed by lines 176-208 of
`get_recipe_recommendations` (the match calculator): the unrounded
percentage, the matched count, the missing list, the expiring-usage count
and the required-row count. -/
structure MatchData where
  match_percentage : ℚ
  matched_count : ℕ
  missing : List IngredientRead
  uses_expiring : ℕ
  total_required : ℕ
  deriving DecidableEq

/-- Lines 176-208: compute the match data for one recipe against the pantry
set and the expiring set.  `match_percentage` is the value before the
`round(_, 1)` applied at `RecipeMatch` construction (line 227). -/
def computeMatch (recipe : Recipe) (pantry_ingredient_ids : Finset ℤ)
    (expiring_ids : Finset ℤ) : MatchData :=
  let required_ingredients := requiredIngredients recipe
  if required_ingredients.isEmpty then
    { match_percentage := 100
      matched_count := 0
      missing := []
      uses_expiring := 0
      total_required := required_ingredients.length }
  else
    let matched_count := required_ingredients.countP
      (fun ri => decide (ri.ingredient_id ∈ pantry_ingredient_ids))
    let total_required := required_ingredients.length
    { match_percentage := ((matched_count : ℚ) / (total_required : ℚ)) * 100
      matched_count := matched_count
      missing := (required_ingredients.filter
          (fun ri => decide (ri.ingredient_id ∉ pantry_ingredient_ids))).map
        (fun ri => IngredientRead.model_validate ri.ingredient)
      uses_expiring := required_ingredients.countP
        (fun ri => decide (ri.ingredient_id ∈ expiring_ids))
      total_required := total_required }

/-- Lines 217-233: build the `RecipeMatch` appended to `matches`, rounding
the percentage to one decimal and reporting the expiring-usage count only in
expiring-priority mode. -/
def mkRecipeMatch (prioritize_expiring : Bool) (recipe : Recipe)
    (md : MatchData) : RecipeMatch :=
  { id := recipe.id
    title := recipe.title
    description := recipe.description
    prep_time := recipe.prep_time
    cook_time := recipe.cook_time
    difficulty_level := recipe.difficulty_level
    servings := recipe.servings
    image_url := recipe.image_url
    match_percentage := pyRound1 md.match_percentage
    matched_ingredients := md.matched_count
    total_required_ingredients := md.total_required
    missing_ingredients := md.missing
    uses_expiring_ingredients :=
      if prioritize_expiring then some md.uses_expiring else none }

/-- Python truthiness of an optional string (`if difficulty`): `None` and
`""` are falsy. -/
def strTruthy : Option String → Bool
  | none => false
  | some s => !(s = "")

/-- The body of the `for recipe in recipes` loop (lines 155-233): apply the
difficulty, time and dietary filters, compute the match data, apply the
minimum-match and maximum-missing filters, and produce the `RecipeMatch`
(or nothing when some filter excludes the recipe).  The minimum-match filter
(line 211) compares the UNROUNDED percentage; rounding happens only at
construction (line 227). -/
def evalRecipe (pantry_ingredient_ids expiring_ids : Finset ℤ)
    (min_match_percent : ℚ) (max_missing_ingredients : Option ℕ)
    (difficulty : Option String) (max_total_time : Option ℤ)
    (vegetarian vegan gluten_free : Bool)
    (exclude_allergens : Option (List String)) (prioritize_expiring : Bool)
    (recipe : Recipe) : Option RecipeMatch :=
  if strTruthy difficulty && recipe.difficulty_level ≠ difficulty then none
  else if (match max_total_time with
    | some mt =>
        decide ((recipe.prep_time.getD 0) + (recipe.cook_time.getD 0) > mt)
    | none => false) then none
  else if !check_dietary_compatibility recipe.recipe_ingredients
      vegetarian vegan gluten_free exclude_allergens then none
  else
    let md := computeMatch recipe pantry_ingredient_ids expiring_ids
    if md.match_percentage < min_match_percent then none
    else if (match max_missing_ingredients with
      | some mm => decide (md.missing.length > mm)
      | none => false) then none
    else some (mkRecipeMatch prioritize_expiring recipe md)

/-- The `matches` list accumulated by the recipe loop, in recipe order. -/
def collectMatches (recipes : List Recipe)
    (pantry_ingredient_ids expiring_ids : Finset ℤ)
    (min_match_percent : ℚ) (max_missing_ingredients : Option ℕ)
    (difficulty : Option String) (max_total_time : Option ℤ)
    (vegetarian vegan gluten_free : Bool)
    (exclude_allergens : Option (List String))
    (prioritize_expiring : Bool) : List RecipeMatch :=
  recipes.filterMap
    (evalRecipe pantry_ingredient_ids expiring_ids min_match_percent
      max_missing_ingredients difficulty max_total_time vegetarian vegan
      gluten_free exclude_allergens prioritize_expiring)

/-- The sort key of line 241: the tuple
`(-(uses_expiring_ingredients or 0), -match_percentage, title)`, compared
lexicographically as Python compares tuples. -/
def rankKeyExpiring (m : RecipeMatch) : ℤ ×ₗ (ℚ ×ₗ String) :=
  toLex (-((m.uses_expiring_ingredients.getD 0 : ℕ) : ℤ),
    toLex (-m.match_percentage, m.title))

/-- The sort key of line 248: the tuple `(-match_percentage, title)`. -/
def rankKeyPlain (m : RecipeMatch) : ℚ ×ₗ String :=
  toLex (-m.match_percentage, m.title)

/-- The ordering used by `matches.sort` in expiring-priority mode. -/
def keyLeExpiring (m₁ m₂ : RecipeMatch) : Bool :=
  decide (rankKeyExpiring m₁ ≤ rankKeyExpiring m₂)

/-- The ordering used by `matches.sort` in plain mode. -/
def keyLePlain (m₁ m₂ : RecipeMatch) : Bool :=
  decide (rankKeyPlain m₁ ≤ rankKeyPlain m₂)

/-- Embedding of `get_recipe_recommendations` (lines 95-250), as the pure core over the
snapshots the service fetches: the full recipe catalog, the pantry ingredient
id set, and the expiring ingredient id set (consulted only when
`prioritize_expiring` is set, mirroring lines 139-141).  Filters and
computes per recipe, sorts by the key of the chosen mode, truncates to `limit`. -/
def get_recipe_recommendations (recipes : List Recipe)
    (pantry_ingredient_ids : Finset ℤ) (expiring : Finset ℤ)
    (min_match_percent : ℚ) (max_missing_ingredients : Option ℕ)
    (difficulty : Option String) (max_total_time : Option ℤ)
    (vegetarian vegan gluten_free : Bool)
    (exclude_allergens : Option (List String)) (prioritize_expiring : Bool)
    (limit : ℕ) : List RecipeMatch :=
  let expiring_ids : Finset ℤ :=
    if prioritize_expiring then expiring else ∅
  let matchList := collectMatches recipes pantry_ingredient_ids expiring_ids
    min_match_percent max_missing_ingredients difficulty max_total_time
    vegetarian vegan gluten_free exclude_allergens prioritize_expiring
  let sorted := if prioritize_expiring then matchList.mergeSort keyLeExpiring
    else matchList.mergeSort keyLePlain
  sorted.take limit

/-- Embedding of `get_shopping_list` (lines 253-300), over the recipe-lookup result
(`None` when no recipe has the requested id) and the pantry set: emit one
item per recipe-ingredient row (required and optional alike) whose
ingredient id is absent from the pantry. -/
def get_shopping_list (recipe_lookup : Option Recipe)
    (pantry_ingredient_ids : Finset ℤ) : Option ShoppingList :=
  match recipe_lookup with
  | none => none
  | some recipe =>
      let missing_items := (recipe.recipe_ingredients.filter
          (fun ri => decide (ri.ingredient_id ∉ pantry_ingredient_ids))).map
        (fun ri =>
          { ingredient := IngredientRead.model_validate ri.ingredient
            quantity := ri.quantity
            unit := ri.unit : ShoppingListItem })
      some { recipe_id := recipe.id
             recipe_title := recipe.title
             missing_items := missing_items
             total_missing := missing_items.length }


/-! ## Characterization of the dietary filter -/

/-- The row scan of `check_dietary_compatibility` accepts exactly when every
row is optional or passes the per-row checks. -/
theorem check_dietary_go_eq_all (vegetarian vegan gluten_free : Bool)
    (lower : List String) :
    ∀ ris : List RecipeIngredient,
      check_dietary_compatibility.go vegetarian vegan gluten_free lower ris
        = ris.all fun ri =>
            ri.optional || dietaryRowOk vegetarian vegan gluten_free lower
              ri.ingredient
  | [] => rfl
  | ri :: rest => by
      simp only [check_dietary_compatibility.go, List.all_cons,
        check_dietary_go_eq_all vegetarian vegan gluten_free lower rest]
      by_cases h : ri.optional = true
      · simp [h]
      · by_cases h₂ : dietaryRowOk vegetarian vegan gluten_free lower
            ri.ingredient = true
        · simp [h, h₂]
        · simp [h, h₂]

/-- `check_dietary_compatibility` accepts exactly when every row is optional
or passes the per-row checks against the lowercased exclusion list. -/
theorem check_dietary_eq_all (ris : List RecipeIngredient)
    (vegetarian vegan gluten_free : Bool)
    (exclude_allergens : Option (List String)) :
    check_dietary_compatibility ris vegetarian vegan gluten_free
        exclude_allergens
      = ris.all fun ri =>
          ri.optional || dietaryRowOk vegetarian vegan gluten_free
            ((exclude_allergens.getD []).map String.toLower) ri.ingredient := by
  simp [check_dietary_compatibility, check_dietary_go_eq_all]

/-- The per-row checks as one boolean expression. -/
theorem dietaryRowOk_eq (vegetarian vegan gluten_free : Bool)
    (lower : List String) (ing : Ingredient) :
    dietaryRowOk vegetarian vegan gluten_free lower ing
      = (!(vegetarian && !ing.is_vegetarian) &&
          (!(vegan && !ing.is_vegan) &&
            (!(gluten_free && !ing.is_gluten_free) &&
              !(!lower.isEmpty && ing.get_allergen_list.any
                (fun allergen => lower.contains allergen))))) := by
  unfold dietaryRowOk
  rcases h₁ : vegetarian && !ing.is_vegetarian <;>
    rcases h₂ : vegan && !ing.is_vegan <;>
      rcases h₃ : gluten_free && !ing.is_gluten_free <;>
        rcases h₄ : (!lower.isEmpty && ing.get_allergen_list.any
            fun allergen => lower.contains allergen) <;>
          simp [h₁, h₂, h₃, h₄]

/-- Requirements on a single ingredient, in the words of the spec: the
vegetarian, vegan and gluten-free flags must hold when requested, and when
the exclusion set is non-empty no normalized allergen tag of the ingredient
may occur (case-insensitively) in it. -/
def constraintsSatisfied (vegetarian vegan gluten_free : Bool)
    (excludeAllergens : List String) (ing : Ingredient) : Prop :=
  (vegetarian = true → ing.is_vegetarian = true) ∧
  (vegan = true → ing.is_vegan = true) ∧
  (gluten_free = true → ing.is_gluten_free = true) ∧
  (excludeAllergens ≠ [] →
    ∀ a ∈ ing.get_allergen_list, a ∉ excludeAllergens.map String.toLower)

/-- The per-row checks agree with the spec-side requirement on the
ingredient. -/
theorem dietaryRowOk_iff (vegetarian vegan gluten_free : Bool)
    (excludeAllergens : List String) (ing : Ingredient) :
    dietaryRowOk vegetarian vegan gluten_free
        (excludeAllergens.map String.toLower) ing = true
      ↔ constraintsSatisfied vegetarian vegan gluten_free excludeAllergens
          ing := by
  rw [dietaryRowOk_eq]
  simp only [Bool.and_eq_true]
  unfold constraintsSatisfied
  constructor
  · rintro ⟨h₁, h₂, h₃, h₄⟩
    refine ⟨?_, ?_, ?_, ?_⟩
    · intro hv; by_contra hx
      rw [Bool.not_eq_true] at hx
      simp [hv, hx] at h₁
    · intro hv; by_contra hx
      rw [Bool.not_eq_true] at hx
      simp [hv, hx] at h₂
    · intro hv; by_contra hx
      rw [Bool.not_eq_true] at hx
      simp [hv, hx] at h₃
    · intro hne a ha hmem
      have hemp : (excludeAllergens.map String.toLower).isEmpty = false := by
        rcases excludeAllergens with _ | ⟨b, rest⟩
        · exact absurd rfl hne
        · rfl
      have hany : (ing.get_allergen_list.any fun allergen =>
          (excludeAllergens.map String.toLower).contains allergen) = true := by
        simp only [List.any_eq_true]
        exact ⟨a, ha, by simpa [List.contains] using hmem⟩
      rw [hemp, hany] at h₄
      simp at h₄
  · rintro ⟨h₁, h₂, h₃, h₄⟩
    refine ⟨?_, ?_, ?_, ?_⟩
    · cases hv : vegetarian
      · simp
      · simp [h₁ hv]
    · cases hv : vegan
      · simp
      · simp [h₂ hv]
    · cases hv : gluten_free
      · simp
      · simp [h₃ hv]
    · by_cases hE : excludeAllergens = []
      · simp [hE]
      · have hany : (ing.get_allergen_list.any fun allergen =>
            (excludeAllergens.map String.toLower).contains allergen) = false := by
          rw [List.any_eq_false]
          intro a ha hcon
          have hmem : a ∈ excludeAllergens.map String.toLower := by
            simpa [List.contains] using hcon
          exact h₄ hE a ha hmem
        rw [hany]
        simp

/-- All-rows-optional filter invariance of the `all` characterization. -/
theorem all_optional_or_filter (q : RecipeIngredient → Bool) :
    ∀ ris : List RecipeIngredient,
      ((ris.filter fun ri => !ri.optional).all fun ri => ri.optional || q ri)
        = ris.all fun ri => ri.optional || q ri
  | [] => rfl
  | ri :: rest => by
      cases hopt : ri.optional <;>
        simp [List.filter_cons, hopt, all_optional_or_filter q rest]

/-- C2.  The dietary compatibility check returns `true` iff every
non-optional ingredient satisfies all requested constraints; optional rows
never influence the result; a constraint set with all flags false and an
empty exclusion list accepts every recipe; and a recipe whose rows are all
optional is accepted by every constraint set. -/
theorem claim_C2_dietary_characterization
    (ris : List RecipeIngredient) (vegetarian vegan gluten_free : Bool)
    (excludeAllergens : List String) :
    (check_dietary_compatibility ris vegetarian vegan gluten_free
        (some excludeAllergens) = true ↔
      ∀ ri ∈ ris, ri.optional = false →
        constraintsSatisfied vegetarian vegan gluten_free excludeAllergens
          ri.ingredient) ∧
    (check_dietary_compatibility (ris.filter fun ri => !ri.optional)
        vegetarian vegan gluten_free (some excludeAllergens)
      = check_dietary_compatibility ris vegetarian vegan gluten_free
        (some excludeAllergens)) ∧
    (check_dietary_compatibility ris false false false (some []) = true) ∧
    (check_dietary_compatibility ris false false false none = true) ∧
    ((∀ ri ∈ ris, ri.optional = true) →
      check_dietary_compatibility ris vegetarian vegan gluten_free
        (some excludeAllergens) = true) := by
  refine ⟨?_, ?_, ?_, ?_, ?_⟩
  · rw [check_dietary_eq_all]
    simp only [Option.getD_some, List.all_eq_true, Bool.or_eq_true]
    constructor
    · intro h ri hri hopt
      rcases h ri hri with ho | hok
      · rw [hopt] at ho; cases ho
      · exact (dietaryRowOk_iff vegetarian vegan gluten_free excludeAllergens
          ri.ingredient).mp hok
    · intro h ri hri
      cases hopt : ri.optional
      · exact Or.inr ((dietaryRowOk_iff vegetarian vegan gluten_free
          excludeAllergens ri.ingredient).mpr (h ri hri hopt))
      · exact Or.inl rfl
  · rw [check_dietary_eq_all, check_dietary_eq_all]
    exact all_optional_or_filter _ ris
  · rw [check_dietary_eq_all]
    simp [List.all_eq_true, dietaryRowOk]
  · rw [check_dietary_eq_all]
    simp [List.all_eq_true, dietaryRowOk]
  · intro h
    rw [check_dietary_eq_all]
    simp only [List.all_eq_true, Bool.or_eq_true]
    intro ri hri
    exact Or.inl (h ri hri)

/-- The per-row checks are antitone in the (lowercased) exclusion list. -/
theorem dietaryRowOk_sub (vegetarian vegan gluten_free : Bool)
    (L₁ L₂ : List String) (ing : Ingredient)
    (hsub : ∀ x ∈ L₁, x ∈ L₂)
    (hok : dietaryRowOk vegetarian vegan gluten_free L₂ ing = true) :
    dietaryRowOk vegetarian vegan gluten_free L₁ ing = true := by
  rw [dietaryRowOk_eq] at hok ⊢
  simp only [Bool.and_eq_true] at hok ⊢
  obtain ⟨h₁, h₂, h₃, h₄⟩ := hok
  refine ⟨h₁, h₂, h₃, ?_⟩
  rcases hL : L₁ with _ | ⟨x, rest⟩
  · rfl
  · have hx : x ∈ L₂ := hsub x (by rw [hL]; exact List.mem_cons_self x rest)
    have hempty₂ : L₂.isEmpty = false := by
      rcases L₂ with _ | _
      · cases hx
      · rfl
    rw [hempty₂] at h₄
    have h₅ : (ing.get_allergen_list.any fun allergen =>
        L₂.contains allergen) = false := by simpa using h₄
    have hany₁ : (ing.get_allergen_list.any fun allergen =>
        (x :: rest).contains allergen) = false := by
      rw [List.any_eq_false] at h₅ ⊢
      intro b hb hcon
      apply h₅ b hb
      have hbmem : b ∈ (x :: rest) := by simpa [List.contains] using hcon
      have : b ∈ L₂ := hsub b (by rw [hL]; exact hbmem)
      simp [List.contains, this]
    rw [hany₁]
    simp

/-- C7.  The dietary compatibility check is antitone in the exclusion set:
a recipe incompatible under an exclusion list stays incompatible after
adding another allergen tag to the list. -/
theorem claim_C7_allergen_antitone (ris : List RecipeIngredient)
    (vegetarian vegan gluten_free : Bool) (E : List String) (a : String)
    (h : check_dietary_compatibility ris vegetarian vegan gluten_free
      (some E) = false) :
    check_dietary_compatibility ris vegetarian vegan gluten_free
      (some (a :: E)) = false := by
  by_contra hT
  rw [Bool.not_eq_false] at hT
  have hE : check_dietary_compatibility ris vegetarian vegan gluten_free
      (some E) = true := by
    rw [check_dietary_eq_all] at hT ⊢
    rw [List.all_eq_true] at hT ⊢
    intro ri hri
    cases ho : ri.optional
    · have hok : dietaryRowOk vegetarian vegan gluten_free
          (((some (a :: E)).getD []).map String.toLower) ri.ingredient
            = true := by
        have hrow := hT ri hri
        rw [ho] at hrow
        simpa using hrow
      have hsmall := dietaryRowOk_sub vegetarian vegan gluten_free
        (((some E).getD []).map String.toLower)
        (((some (a :: E)).getD []).map String.toLower) ri.ingredient
        (by
          intro y hy
          simp only [Option.getD_some, List.map_cons] at hy ⊢
          exact List.mem_cons_of_mem _ hy) hok
      simpa using hsmall
    · simp [ho]
  rw [hE] at h
  cases h

/-! ## Concrete example data (used by witnesses and counterexamples) -/

/-- A flag-friendly ingredient with no allergens. -/
def plainIng (n : ℤ) (nm : String) : Ingredient :=
  { id := n
    name := nm
    category := "misc"
    is_vegetarian := true
    is_vegan := true
    is_gluten_free := true
    allergens := none }

/-- A non-vegetarian, non-vegan ingredient. -/
def meatIng : Ingredient :=
  { id := 9
    name := "beef"
    category := "protein"
    is_vegetarian := false
    is_vegan := false
    is_gluten_free := true
    allergens := none }

/-- A recipe-ingredient row for an ingredient. -/
def rowOf (opt : Bool) (ing : Ingredient) : RecipeIngredient :=
  { recipe_id := 1
    quantity := none
    unit := none
    optional := opt
    ingredient := ing }

/-- Witness for C2: a recipe whose only row is optional is compatible with
every constraint set. -/
theorem claim_C2_witness :
    check_dietary_compatibility [rowOf true meatIng] true true true
      (some ["nuts"]) = true :=
  (claim_C2_dietary_characterization [rowOf true meatIng] true true true
    ["nuts"]).2.2.2.2 (by decide)

/-- Witness for C7: a recipe incompatible under the empty exclusion list
(beef fails the requested vegetarian flag) stays incompatible after adding
an allergen tag. -/
theorem claim_C7_witness :
    check_dietary_compatibility [rowOf false meatIng] true false false
      (some ["nuts"]) = false :=
  claim_C7_allergen_antitone [rowOf false meatIng] true false false []
    "nuts" (by decide)

/-! ## The match calculator -/

/-- Unfolding equation for `computeMatch` on a recipe with no required
rows. -/
theorem computeMatch_eq_of_empty (recipe : Recipe)
    (pantry_ingredient_ids expiring_ids : Finset ℤ)
    (h : (requiredIngredients recipe).isEmpty = true) :
    computeMatch recipe pantry_ingredient_ids expiring_ids
      = { match_percentage := 100
          matched_count := 0
          missing := []
          uses_expiring := 0
          total_required := (requiredIngredients recipe).length } := by
  simp only [computeMatch, h, if_true]

/-- Unfolding equation for `computeMatch` on a recipe with at least one
required row. -/
theorem computeMatch_eq_of_nonempty (recipe : Recipe)
    (pantry_ingredient_ids expiring_ids : Finset ℤ)
    (h : (requiredIngredients recipe).isEmpty = false) :
    computeMatch recipe pantry_ingredient_ids expiring_ids
      = { match_percentage :=
            (((requiredIngredients recipe).countP
                (fun ri => decide (ri.ingredient_id ∈ pantry_ingredient_ids))
                  : ℚ)
              / ((requiredIngredients recipe).length : ℚ)) * 100
          matched_count := (requiredIngredients recipe).countP
            (fun ri => decide (ri.ingredient_id ∈ pantry_ingredient_ids))
          missing := ((requiredIngredients recipe).filter
              (fun ri =>
                decide (ri.ingredient_id ∉ pantry_ingredient_ids))).map
            (fun ri => IngredientRead.model_validate ri.ingredient)
          uses_expiring := (requiredIngredients recipe).countP
            (fun ri => decide (ri.ingredient_id ∈ expiring_ids))
          total_required := (requiredIngredients recipe).length } := by
  simp only [computeMatch, h, Bool.false_eq_true, if_false]

/-- The match calculator partitions the required rows between the matched
count and the missing list. -/
theorem computeMatch_partition (recipe : Recipe)
    (pantry_ingredient_ids expiring_ids : Finset ℤ) :
    (computeMatch recipe pantry_ingredient_ids expiring_ids).matched_count
        + (computeMatch recipe pantry_ingredient_ids
            expiring_ids).missing.length
      = (computeMatch recipe pantry_ingredient_ids
          expiring_ids).total_required := by
  cases h : (requiredIngredients recipe).isEmpty
  · rw [computeMatch_eq_of_nonempty recipe pantry_ingredient_ids
      expiring_ids h]
    dsimp only
    simp only [List.length_map]
    rw [List.length_eq_countP_add_countP
      (fun ri => decide (ri.ingredient_id ∈ pantry_ingredient_ids))
      (requiredIngredients recipe)]
    congr 1
    rw [← List.countP_eq_length_filter]
    apply List.countP_congr
    intro ri _
    simp
  · rw [computeMatch_eq_of_empty recipe pantry_ingredient_ids expiring_ids h]
    simp [List.isEmpty_iff.mp h]

/-- The matched count never exceeds the required-row count. -/
theorem computeMatch_matched_le_total (recipe : Recipe)
    (pantry_ingredient_ids expiring_ids : Finset ℤ) :
    (computeMatch recipe pantry_ingredient_ids expiring_ids).matched_count
      ≤ (computeMatch recipe pantry_ingredient_ids
          expiring_ids).total_required := by
  cases h : (requiredIngredients recipe).isEmpty
  · rw [computeMatch_eq_of_nonempty recipe pantry_ingredient_ids
      expiring_ids h]
    dsimp only
    exact List.countP_le_length _
  · rw [computeMatch_eq_of_empty recipe pantry_ingredient_ids expiring_ids h]
    exact Nat.zero_le _

/-- The unrounded percentage equals 100 exactly when every required row is
matched. -/
theorem computeMatch_pct_100_iff (recipe : Recipe)
    (pantry_ingredient_ids expiring_ids : Finset ℤ) :
    ((computeMatch recipe pantry_ingredient_ids
          expiring_ids).matched_count
        = (computeMatch recipe pantry_ingredient_ids
            expiring_ids).total_required)
      ↔ (computeMatch recipe pantry_ingredient_ids
          expiring_ids).match_percentage = 100 := by
  cases h : (requiredIngredients recipe).isEmpty
  · rw [computeMatch_eq_of_nonempty recipe pantry_ingredient_ids
      expiring_ids h]
    dsimp only
    have hlen : (requiredIngredients recipe).length ≠ 0 := by
      intro h0
      rw [List.length_eq_zero] at h0
      rw [h0] at h
      cases h
    have hq : ((requiredIngredients recipe).length : ℚ) ≠ 0 := by
      exact_mod_cast hlen
    constructor
    · intro hm
      rw [hm, div_self hq]
      norm_num
    · intro hp
      have h2 : (requiredIngredients recipe).countP
            (fun ri => decide (ri.ingredient_id ∈ pantry_ingredient_ids))
              * 100
          = 100 * (requiredIngredients recipe).length := by
        field_simp at hp
        exact_mod_cast hp
      omega
  · rw [computeMatch_eq_of_empty recipe pantry_ingredient_ids expiring_ids h]
    simp [List.isEmpty_iff.mp h]

/-- Projection equations for `mkRecipeMatch`. -/
theorem mkRecipeMatch_match_percentage (prioritize_expiring : Bool)
    (recipe : Recipe) (md : MatchData) :
    (mkRecipeMatch prioritize_expiring recipe md).match_percentage
      = pyRound1 md.match_percentage := rfl

/-- The matched-count field of the rendered match. -/
theorem mkRecipeMatch_matched (prioritize_expiring : Bool)
    (recipe : Recipe) (md : MatchData) :
    (mkRecipeMatch prioritize_expiring recipe md).matched_ingredients
      = md.matched_count := rfl

/-- The required-count field of the rendered match. -/
theorem mkRecipeMatch_total (prioritize_expiring : Bool)
    (recipe : Recipe) (md : MatchData) :
    (mkRecipeMatch prioritize_expiring recipe md).total_required_ingredients
      = md.total_required := rfl

/-- The missing-list field of the rendered match. -/
theorem mkRecipeMatch_missing (prioritize_expiring : Bool)
    (recipe : Recipe) (md : MatchData) :
    (mkRecipeMatch prioritize_expiring recipe md).missing_ingredients
      = md.missing := rfl

/-- The expiring-usage field of the rendered match. -/
theorem mkRecipeMatch_uses (prioritize_expiring : Bool)
    (recipe : Recipe) (md : MatchData) :
    (mkRecipeMatch prioritize_expiring recipe md).uses_expiring_ingredients
      = if prioritize_expiring then some md.uses_expiring else none := rfl

/-- Rounding an exact 100 still gives 100. -/
theorem pyRound1_100 : pyRound1 100 = 100 := by
  norm_num [pyRound1, roundHalfEven]

/-! ## The recipe loop and membership in the ranker output -/

/-- A `RecipeMatch` produced by the loop body is the rendering of the match
data computed for its recipe. -/
theorem evalRecipe_eq_some (pantry_ingredient_ids expiring_ids : Finset ℤ)
    (min_match_percent : ℚ) (max_missing_ingredients : Option ℕ)
    (difficulty : Option String) (max_total_time : Option ℤ)
    (vegetarian vegan gluten_free : Bool)
    (exclude_allergens : Option (List String)) (prioritize_expiring : Bool)
    (recipe : Recipe) (m : RecipeMatch)
    (h : evalRecipe pantry_ingredient_ids expiring_ids min_match_percent
      max_missing_ingredients difficulty max_total_time vegetarian vegan
      gluten_free exclude_allergens prioritize_expiring recipe = some m) :
    m = mkRecipeMatch prioritize_expiring recipe
      (computeMatch recipe pantry_ingredient_ids expiring_ids) := by
  simp only [evalRecipe] at h
  split_ifs at h <;> simp_all

/-- The loop body excludes a recipe (returns nothing) when the unrounded
percentage is strictly below the minimum, provided the recipe survives the
difficulty, time and dietary filters. -/
theorem evalRecipe_none_of_lt (pantry_ingredient_ids expiring_ids : Finset ℤ)
    (min_match_percent : ℚ) (max_missing_ingredients : Option ℕ)
    (difficulty : Option String) (max_total_time : Option ℤ)
    (vegetarian vegan gluten_free : Bool)
    (exclude_allergens : Option (List String)) (prioritize_expiring : Bool)
    (recipe : Recipe)
    (hdiff : (strTruthy difficulty &&
      decide (recipe.difficulty_level ≠ difficulty)) = false)
    (htime : (match max_total_time with
      | some mt =>
          decide ((recipe.prep_time.getD 0) + (recipe.cook_time.getD 0) > mt)
      | none => false) = false)
    (hdiet : check_dietary_compatibility recipe.recipe_ingredients
      vegetarian vegan gluten_free exclude_allergens = true)
    (hlt : (computeMatch recipe pantry_ingredient_ids
      expiring_ids).match_percentage < min_match_percent) :
    evalRecipe pantry_ingredient_ids expiring_ids min_match_percent
      max_missing_ingredients difficulty max_total_time vegetarian vegan
      gluten_free exclude_allergens prioritize_expiring recipe = none := by
  simp only [evalRecipe, hdiff, htime, hdiet, Bool.false_eq_true, if_false,
    Bool.not_true]
  rw [if_pos hlt]

/-- The loop body keeps a recipe when the unrounded percentage is at least
the minimum and the other filters pass. -/
theorem evalRecipe_some_of_ge (pantry_ingredient_ids expiring_ids : Finset ℤ)
    (min_match_percent : ℚ) (max_missing_ingredients : Option ℕ)
    (difficulty : Option String) (max_total_time : Option ℤ)
    (vegetarian vegan gluten_free : Bool)
    (exclude_allergens : Option (List String)) (prioritize_expiring : Bool)
    (recipe : Recipe)
    (hdiff : (strTruthy difficulty &&
      decide (recipe.difficulty_level ≠ difficulty)) = false)
    (htime : (match max_total_time with
      | some mt =>
          decide ((recipe.prep_time.getD 0) + (recipe.cook_time.getD 0) > mt)
      | none => false) = false)
    (hdiet : check_dietary_compatibility recipe.recipe_ingredients
      vegetarian vegan gluten_free exclude_allergens = true)
    (hge : min_match_percent ≤ (computeMatch recipe pantry_ingredient_ids
      expiring_ids).match_percentage)
    (hmiss : (match max_missing_ingredients with
      | some mm => decide ((computeMatch recipe pantry_ingredient_ids
          expiring_ids).missing.length > mm)
      | none => false) = false) :
    evalRecipe pantry_ingredient_ids expiring_ids min_match_percent
      max_missing_ingredients difficulty max_total_time vegetarian vegan
      gluten_free exclude_allergens prioritize_expiring recipe
      = some (mkRecipeMatch prioritize_expiring recipe
        (computeMatch recipe pantry_ingredient_ids expiring_ids)) := by
  simp only [evalRecipe, hdiff, htime, hdiet, Bool.false_eq_true, if_false,
    Bool.not_true]
  rw [if_neg (not_lt.mpr hge)]
  simp only [hmiss, Bool.false_eq_true, if_false]

/-- Every element of the ranker output arises from some recipe of the
catalog via the loop body (with the expiring set gated on the mode). -/
theorem mem_recommendations (recipes : List Recipe)
    (pantry_ingredient_ids expiring : Finset ℤ) (min_match_percent : ℚ)
    (max_missing_ingredients : Option ℕ) (difficulty : Option String)
    (max_total_time : Option ℤ) (vegetarian vegan gluten_free : Bool)
    (exclude_allergens : Option (List String)) (prioritize_expiring : Bool)
    (limit : ℕ) (m : RecipeMatch)
    (h : m ∈ get_recipe_recommendations recipes pantry_ingredient_ids
      expiring min_match_percent max_missing_ingredients difficulty
      max_total_time vegetarian vegan gluten_free exclude_allergens
      prioritize_expiring limit) :
    ∃ recipe ∈ recipes,
      evalRecipe pantry_ingredient_ids
        (if prioritize_expiring then expiring else ∅) min_match_percent
        max_missing_ingredients difficulty max_total_time vegetarian vegan
        gluten_free exclude_allergens prioritize_expiring recipe
        = some m := by
  simp only [get_recipe_recommendations] at h
  cases hp : prioritize_expiring <;>
    simp only [hp, if_true, if_false, Bool.false_eq_true, Bool.true_eq_false]
      at h
  all_goals
    have hs := List.mem_of_mem_take h
    have hmem := (List.mergeSort_perm _ _).mem_iff.mp hs
    rcases List.mem_filterMap.mp hmem with ⟨r, hr, he⟩
    exact ⟨r, hr, by simpa [hp] using he⟩

/-- C8.  Every `RecipeMatch` returned by the ranker partitions the required
rows exactly between the matched count and the missing list. -/
theorem claim_C8_partition (recipes : List Recipe)
    (pantry_ingredient_ids expiring : Finset ℤ) (min_match_percent : ℚ)
    (max_missing_ingredients : Option ℕ) (difficulty : Option String)
    (max_total_time : Option ℤ) (vegetarian vegan gluten_free : Bool)
    (exclude_allergens : Option (List String)) (prioritize_expiring : Bool)
    (limit : ℕ) (m : RecipeMatch)
    (h : m ∈ get_recipe_recommendations recipes pantry_ingredient_ids
      expiring min_match_percent max_missing_ingredients difficulty
      max_total_time vegetarian vegan gluten_free exclude_allergens
      prioritize_expiring limit) :
    m.matched_ingredients + m.missing_ingredients.length
      = m.total_required_ingredients := by
  obtain ⟨r, hr, he⟩ := mem_recommendations recipes pantry_ingredient_ids
    expiring min_match_percent max_missing_ingredients difficulty
    max_total_time vegetarian vegan gluten_free exclude_allergens
    prioritize_expiring limit m h
  have hm := evalRecipe_eq_some _ _ _ _ _ _ _ _ _ _ _ _ _ he
  rw [hm]
  simp only [mkRecipeMatch]
  exact computeMatch_partition r pantry_ingredient_ids _

/-! ## Evaluation helpers for the rounding function -/

/-- `roundHalfEven` when the fractional part is below one half. -/
theorem roundHalfEven_of_lt (q : ℚ) (n : ℤ) (hfl : ⌊q⌋ = n)
    (h : q - n < 1 / 2) : roundHalfEven q = n := by
  simp only [roundHalfEven, hfl]
  rw [if_pos h]

/-- `roundHalfEven` when the fractional part is above one half. -/
theorem roundHalfEven_of_gt (q : ℚ) (n : ℤ) (hfl : ⌊q⌋ = n)
    (h : 1 / 2 < q - n) : roundHalfEven q = n + 1 := by
  simp only [roundHalfEven, hfl]
  rw [if_neg (by linarith), if_pos h]

/-- `roundHalfEven` at an exact half with an odd floor rounds up. -/
theorem roundHalfEven_of_half_odd (q : ℚ) (n : ℤ) (hfl : ⌊q⌋ = n)
    (h : q - n = 1 / 2) (hodd : n % 2 ≠ 0) : roundHalfEven q = n + 1 := by
  simp only [roundHalfEven, hfl]
  rw [if_neg (by rw [h]; exact lt_irrefl _), if_neg (by rw [h]; exact lt_irrefl _), if_neg hodd]

/-! ## Claim C1: the minimum-match filter -/

/-- A three-required-ingredient recipe of which the pantry below holds
two: the raw percentage is 200/3 ≈ 66.667, the rounded percentage 66.7. -/
def recipeC1 : Recipe :=
  { id := 1
    title := "Pasta"
    description := none
    prep_time := none
    cook_time := none
    difficulty_level := none
    servings := none
    image_url := none
    recipe_ingredients :=
      [rowOf false (plainIng 1 "spaghetti"), rowOf false (plainIng 2 "garlic"),
        rowOf false (plainIng 3 "basil")] }

/-- A pantry holding two of the three required ingredients of `recipeC1`. -/
def pantryC1 : Finset ℤ := {1, 2}

/-- The raw (unrounded) percentage of `recipeC1` against `pantryC1`. -/
theorem recipeC1_pct :
    (computeMatch recipeC1 pantryC1 ∅).match_percentage = 200 / 3 := by
  rw [computeMatch_eq_of_nonempty recipeC1 pantryC1 ∅ rfl]
  dsimp only
  norm_num [show ((requiredIngredients recipeC1).countP
      (fun ri => decide (ri.ingredient_id ∈ pantryC1))) = 2 from by decide,
    show (requiredIngredients recipeC1).length = 3 from by decide]

/-- Counterexample to C1 as stated: against `pantryC1`, `recipeC1` has a
rounded match percentage exactly equal to the minimum 66.7 and passes every
other filter, yet the ranker excludes it, because the filter at line 211
compares the UNROUNDED percentage 200/3 < 66.7. -/
theorem claim_C1_counterexample :
    pyRound1 ((computeMatch recipeC1 pantryC1 ∅).match_percentage)
        = 667 / 10 ∧
    get_recipe_recommendations [recipeC1] pantryC1 ∅ (667 / 10) none none
      none false false false none false 20 = [] := by
  constructor
  · rw [recipeC1_pct]
    unfold pyRound1
    rw [show (200 : ℚ) / 3 * 10 = 2000 / 3 by norm_num,
      roundHalfEven_of_gt (2000 / 3) 666 (by norm_num [Int.floor_eq_iff])
        (by norm_num)]
    norm_num
  · have hnone : evalRecipe pantryC1 ∅ (667 / 10) none none none false
        false false none false recipeC1 = none := by
      refine evalRecipe_none_of_lt pantryC1 ∅ (667 / 10) none none none
        false false false none false recipeC1 rfl rfl (by decide) ?_
      rw [recipeC1_pct]
      norm_num
    simp [get_recipe_recommendations, collectMatches, hnone]

/-- C1 (amended).  For a recipe surviving the difficulty, time and dietary
filters, the minimum-match filter excludes it iff its UNROUNDED percentage
is strictly below `min_match_percent`; when the unrounded percentage is at
least the minimum (and the maximum-missing filter passes) the match of
the recipe appears in the collected match list. -/
theorem claim_C1_min_match_unrounded
    (pantry_ingredient_ids expiring_ids : Finset ℤ) (min_match_percent : ℚ)
    (max_missing_ingredients : Option ℕ) (difficulty : Option String)
    (max_total_time : Option ℤ) (vegetarian vegan gluten_free : Bool)
    (exclude_allergens : Option (List String)) (prioritize_expiring : Bool)
    (recipe : Recipe)
    (hdiff : (strTruthy difficulty &&
      decide (recipe.difficulty_level ≠ difficulty)) = false)
    (htime : (match max_total_time with
      | some mt =>
          decide ((recipe.prep_time.getD 0) + (recipe.cook_time.getD 0) > mt)
      | none => false) = false)
    (hdiet : check_dietary_compatibility recipe.recipe_ingredients
      vegetarian vegan gluten_free exclude_allergens = true) :
    ((computeMatch recipe pantry_ingredient_ids
        expiring_ids).match_percentage < min_match_percent →
      evalRecipe pantry_ingredient_ids expiring_ids min_match_percent
        max_missing_ingredients difficulty max_total_time vegetarian vegan
        gluten_free exclude_allergens prioritize_expiring recipe = none) ∧
    (min_match_percent ≤ (computeMatch recipe pantry_ingredient_ids
        expiring_ids).match_percentage →
      (match max_missing_ingredients with
        | some mm => decide ((computeMatch recipe pantry_ingredient_ids
            expiring_ids).missing.length > mm)
        | none => false) = false →
      ∀ recipes : List Recipe, recipe ∈ recipes →
        mkRecipeMatch prioritize_expiring recipe
            (computeMatch recipe pantry_ingredient_ids expiring_ids)
          ∈ collectMatches recipes pantry_ingredient_ids expiring_ids
            min_match_percent max_missing_ingredients difficulty
            max_total_time vegetarian vegan gluten_free exclude_allergens
            prioritize_expiring) := by
  constructor
  · intro hlt
    exact evalRecipe_none_of_lt pantry_ingredient_ids expiring_ids
      min_match_percent max_missing_ingredients difficulty max_total_time
      vegetarian vegan gluten_free exclude_allergens prioritize_expiring
      recipe hdiff htime hdiet hlt
  · intro hge hmiss recipes hr
    have hsome := evalRecipe_some_of_ge pantry_ingredient_ids expiring_ids
      min_match_percent max_missing_ingredients difficulty max_total_time
      vegetarian vegan gluten_free exclude_allergens prioritize_expiring
      recipe hdiff htime hdiet hge hmiss
    exact List.mem_filterMap.mpr ⟨recipe, hr, hsome⟩

/-- Witness for the amended C1: with minimum 60, the match of `recipeC1`
(raw percentage 200/3 ≥ 60) is collected. -/
theorem claim_C1_witness :
    mkRecipeMatch false recipeC1 (computeMatch recipeC1 pantryC1 ∅)
      ∈ collectMatches [recipeC1] pantryC1 ∅ 60 none none none false false
        false none false :=
  (claim_C1_min_match_unrounded pantryC1 ∅ 60 none none none false false
    false none false recipeC1 rfl rfl (by decide)).2
    (by rw [recipeC1_pct]; norm_num) rfl [recipeC1]
    (List.mem_singleton.mpr rfl)

/-! ## Claim C4: bounds and the 100-percent condition -/

/-- C4 (amended).  The match calculator always has
`matched_count ≤ total_required`; the full-match condition
`matched_count = total_required` holds iff the UNROUNDED percentage is 100,
and it implies that the reported (rounded) `match_percentage` is 100.  (The
converse for the rounded value fails: see the counterexample.) -/
theorem claim_C4_bounds (recipe : Recipe)
    (pantry_ingredient_ids expiring_ids : Finset ℤ)
    (prioritize_expiring : Bool) :
    (computeMatch recipe pantry_ingredient_ids expiring_ids).matched_count
        ≤ (computeMatch recipe pantry_ingredient_ids
            expiring_ids).total_required ∧
    ((computeMatch recipe pantry_ingredient_ids
          expiring_ids).matched_count
        = (computeMatch recipe pantry_ingredient_ids
            expiring_ids).total_required
      ↔ (computeMatch recipe pantry_ingredient_ids
          expiring_ids).match_percentage = 100) ∧
    ((computeMatch recipe pantry_ingredient_ids
          expiring_ids).matched_count
        = (computeMatch recipe pantry_ingredient_ids
            expiring_ids).total_required →
      (mkRecipeMatch prioritize_expiring recipe
        (computeMatch recipe pantry_ingredient_ids
          expiring_ids)).match_percentage = 100) := by
  refine ⟨computeMatch_matched_le_total recipe pantry_ingredient_ids
    expiring_ids, computeMatch_pct_100_iff recipe pantry_ingredient_ids
    expiring_ids, ?_⟩
  intro h
  have hp := (computeMatch_pct_100_iff recipe pantry_ingredient_ids
    expiring_ids).mp h
  simp only [mkRecipeMatch]
  rw [hp, pyRound1_100]

/-- Witness for the amended C4: a pantry holding all three required
ingredients of `recipeC1` gives a reported percentage of 100. -/
theorem claim_C4_witness :
    (mkRecipeMatch false recipeC1
      (computeMatch recipeC1 ({1, 2, 3} : Finset ℤ) ∅)).match_percentage
      = 100 :=
  (claim_C4_bounds recipeC1 ({1, 2, 3} : Finset ℤ) ∅ false).2.2 (by decide)

/-- `countP` over a replicated list. -/
theorem countP_replicate {α : Type} (p : α → Bool) (a : α) :
    ∀ n : ℕ, (List.replicate n a).countP p = if p a then n else 0
  | 0 => by simp
  | n + 1 => by
      rw [List.replicate_succ, List.countP_cons, countP_replicate p a n]
      cases h : p a <;> simp [h]

/-- A 2000-required-row recipe: 1999 rows of one pantry ingredient and a
single missing one.  Raw percentage 99.95, which rounds to 100.0. -/
def recipeC4 : Recipe :=
  { id := 4
    title := "Giant"
    description := none
    prep_time := none
    cook_time := none
    difficulty_level := none
    servings := none
    image_url := none
    recipe_ingredients :=
      List.replicate 1999 (rowOf false (plainIng 1 "rice"))
        ++ [rowOf false (plainIng 2 "saffron")] }

/-- A pantry holding only the replicated ingredient of `recipeC4`. -/
def pantryC4 : Finset ℤ := {1}

/-- The required rows of `recipeC4` are all its rows. -/
theorem recipeC4_required :
    requiredIngredients recipeC4
      = List.replicate 1999 (rowOf false (plainIng 1 "rice"))
        ++ [rowOf false (plainIng 2 "saffron")] := by
  unfold requiredIngredients recipeC4
  rw [List.filter_append, List.filter_replicate,
    if_pos (show (!(rowOf false (plainIng 1 "rice")).optional) = true
      from rfl)]
  rfl

/-- Counterexample to C4 as stated: the reported (rounded) percentage of
`recipeC4` against `pantryC4` is 100.0 even though only 1999 of its 2000
required rows are matched, refuting the claimed equivalence for the
rounded value. -/
theorem claim_C4_counterexample :
    (mkRecipeMatch false recipeC4
      (computeMatch recipeC4 pantryC4 ∅)).match_percentage = 100 ∧
    (mkRecipeMatch false recipeC4
        (computeMatch recipeC4 pantryC4 ∅)).matched_ingredients
      ≠ (mkRecipeMatch false recipeC4
          (computeMatch recipeC4 pantryC4 ∅)).total_required_ingredients := by
  have hne : (requiredIngredients recipeC4).isEmpty = false := by
    rw [recipeC4_required]
    rfl
  have hcount : (requiredIngredients recipeC4).countP
      (fun ri => decide (ri.ingredient_id ∈ pantryC4)) = 1999 := by
    rw [recipeC4_required, List.countP_append,
      List.countP_eq_length_filter, List.filter_replicate]
    norm_num [rowOf, plainIng, RecipeIngredient.ingredient_id, pantryC4]
  have hlen : (requiredIngredients recipeC4).length = 2000 := by
    rw [recipeC4_required, List.length_append, List.length_replicate]
    rfl
  have hpct : (computeMatch recipeC4 pantryC4 ∅).match_percentage
      = (1999 : ℚ) / 2000 * 100 := by
    rw [computeMatch_eq_of_nonempty recipeC4 pantryC4 ∅ hne]
    dsimp only
    rw [hcount, hlen]
    norm_num
  have hmc : (computeMatch recipeC4 pantryC4 ∅).matched_count = 1999 := by
    rw [computeMatch_eq_of_nonempty recipeC4 pantryC4 ∅ hne]
    dsimp only
    exact hcount
  have htot : (computeMatch recipeC4 pantryC4 ∅).total_required = 2000 := by
    rw [computeMatch_eq_of_nonempty recipeC4 pantryC4 ∅ hne]
    dsimp only
    exact hlen
  constructor
  · rw [mkRecipeMatch_match_percentage, hpct]
    unfold pyRound1
    rw [show (1999 : ℚ) / 2000 * 100 * 10 = 1999 / 2 by norm_num,
      roundHalfEven_of_half_odd (1999 / 2) 999
        (by norm_num [Int.floor_eq_iff]) (by norm_num) (by decide)]
    norm_num
  · rw [mkRecipeMatch_matched, mkRecipeMatch_total, hmc, htot]
    norm_num

/-! ## Claim C5: recipes with no required ingredients -/

/-- C5.  A recipe with zero required rows always gets raw and rounded
percentage 100, matched count 0, an empty missing list and an expiring
usage count of 0, regardless of the pantry or expiring sets. -/
theorem claim_C5_no_required (recipe : Recipe)
    (pantry_ingredient_ids expiring_ids : Finset ℤ)
    (prioritize_expiring : Bool)
    (h : requiredIngredients recipe = []) :
    (computeMatch recipe pantry_ingredient_ids
        expiring_ids).match_percentage = 100 ∧
    (computeMatch recipe pantry_ingredient_ids
        expiring_ids).matched_count = 0 ∧
    (computeMatch recipe pantry_ingredient_ids expiring_ids).missing = [] ∧
    (computeMatch recipe pantry_ingredient_ids
        expiring_ids).uses_expiring = 0 ∧
    (mkRecipeMatch prioritize_expiring recipe
      (computeMatch recipe pantry_ingredient_ids
        expiring_ids)).match_percentage = 100 := by
  have hemp : (requiredIngredients recipe).isEmpty = true :=
    List.isEmpty_iff.mpr h
  rw [computeMatch_eq_of_empty recipe pantry_ingredient_ids expiring_ids
    hemp]
  simp [mkRecipeMatch, pyRound1_100]

/-- Witness for C5: a recipe whose single row is optional, against a
non-empty pantry. -/
theorem claim_C5_witness :
    (computeMatch
      { id := 5
        title := "Water"
        description := none
        prep_time := none
        cook_time := none
        difficulty_level := none
        servings := none
        image_url := none
        recipe_ingredients := [rowOf true (plainIng 1 "lemon")] }
      ({1, 2} : Finset ℤ) ({1} : Finset ℤ)).match_percentage = 100 :=
  (claim_C5_no_required _ ({1, 2} : Finset ℤ) ({1} : Finset ℤ) true
    (by decide)).1

/-! ## Claim C6: the shopping-list builder -/

/-- Unfolding equation for `get_shopping_list` on an existing recipe. -/
theorem get_shopping_list_some (recipe : Recipe)
    (pantry_ingredient_ids : Finset ℤ) :
    get_shopping_list (some recipe) pantry_ingredient_ids
      = some
        { recipe_id := recipe.id
          recipe_title := recipe.title
          missing_items := (recipe.recipe_ingredients.filter
              (fun ri =>
                decide (ri.ingredient_id ∉ pantry_ingredient_ids))).map
            (fun ri =>
              { ingredient := IngredientRead.model_validate ri.ingredient
                quantity := ri.quantity
                unit := ri.unit : ShoppingListItem })
          total_missing := ((recipe.recipe_ingredients.filter
              (fun ri =>
                decide (ri.ingredient_id ∉ pantry_ingredient_ids))).map
            (fun ri =>
              { ingredient := IngredientRead.model_validate ri.ingredient
                quantity := ri.quantity
                unit := ri.unit : ShoppingListItem })).length } := rfl

/-- A recipe carrying the same ingredient on two distinct rows (the schema
does not force uniqueness of (recipe, ingredient) pairs). -/
def dupRecipe : Recipe :=
  { id := 6
    title := "Dup"
    description := none
    prep_time := none
    cook_time := none
    difficulty_level := none
    servings := none
    image_url := none
    recipe_ingredients :=
      [rowOf false (plainIng 5 "salt"), rowOf false (plainIng 5 "salt")] }

/-- Counterexample to C6 as stated: ingredient id 5 is a recipe ingredient
id of `dupRecipe` absent from the empty pantry, yet it appears TWICE (not
exactly once) in `missing_items`, because the builder emits one item per
recipe-ingredient row. -/
theorem claim_C6_counterexample :
    ((5 : ℤ) ∉ (∅ : Finset ℤ)) ∧
    dupRecipe.recipe_ingredients.map
      (fun ri => ri.ingredient_id) = [5, 5] ∧
    ((get_shopping_list (some dupRecipe) (∅ : Finset ℤ)).map
      (fun sl => (sl.missing_items.map
        (fun it => it.ingredient.id)).count 5)) = some 2 := by
  refine ⟨by decide, by decide, by decide⟩

/-- C6 (amended).  The shopping-list builder iterates all recipe-ingredient
rows (required and optional alike): every item of `missing_items` carries
an ingredient id absent from the pantry; for every id, the number of items
carrying it equals the number of recipe-ingredient rows bearing that id
whose id is absent from the pantry (so a duplicated row contributes once
per row, not once per distinct id); `total_missing` is the item count; and
a missing recipe yields an absent result. -/
theorem claim_C6_shopping_list (recipe : Recipe) (pantry : Finset ℤ) :
    (get_shopping_list none pantry = none) ∧
    ∀ sl : ShoppingList, get_shopping_list (some recipe) pantry = some sl →
      ((∀ it ∈ sl.missing_items, it.ingredient.id ∉ pantry) ∧
       (∀ i : ℤ, sl.missing_items.countP
            (fun it => decide (it.ingredient.id = i))
          = recipe.recipe_ingredients.countP
            (fun ri =>
              decide (ri.ingredient_id = i ∧ ri.ingredient_id ∉ pantry))) ∧
       sl.total_missing = sl.missing_items.length) := by
  refine ⟨rfl, ?_⟩
  intro sl h
  rw [get_shopping_list_some] at h
  have hsl := Option.some.inj h
  subst hsl
  refine ⟨?_, ?_, rfl⟩
  · intro it hit
    rcases List.mem_map.mp hit with ⟨ri, hri, hid⟩
    rcases List.mem_filter.mp hri with ⟨_, hnot⟩
    rw [← hid]
    simpa [IngredientRead.model_validate,
      RecipeIngredient.ingredient_id] using of_decide_eq_true hnot
  · intro i
    rw [List.countP_map, List.countP_filter]
    apply List.countP_congr
    intro ri _
    simp [Function.comp, IngredientRead.model_validate,
      RecipeIngredient.ingredient_id, and_comm]

/-- The shopping-list example of the spec: tomato and onion required,
garlic optional. -/
def shopRecipe : Recipe :=
  { id := 7
    title := "Bruschetta"
    description := none
    prep_time := none
    cook_time := none
    difficulty_level := none
    servings := none
    image_url := none
    recipe_ingredients :=
      [rowOf false (plainIng 1 "tomato"), rowOf false (plainIng 2 "onion"),
        rowOf true (plainIng 3 "garlic")] }

/-- The shopping list of `shopRecipe` against a pantry holding only the
tomato: onion and garlic are missing. -/
def slShop : ShoppingList :=
  { recipe_id := 7
    recipe_title := "Bruschetta"
    missing_items :=
      [{ ingredient := IngredientRead.model_validate (plainIng 2 "onion")
         quantity := none
         unit := none },
       { ingredient := IngredientRead.model_validate (plainIng 3 "garlic")
         quantity := none
         unit := none }]
    total_missing := 2 }

/-- Witness for the amended C6 at the example given in the spec. -/
theorem claim_C6_witness :
    (get_shopping_list none ({1} : Finset ℤ) = none) ∧
    slShop.total_missing = slShop.missing_items.length := by
  have h2 := (claim_C6_shopping_list shopRecipe ({1} : Finset ℤ)).2 slShop
    (by decide)
  exact ⟨(claim_C6_shopping_list shopRecipe ({1} : Finset ℤ)).1, h2.2.2⟩

/-! ## Claim C9: per-row (not per-distinct-id) semantics -/

/-- C9.  Match counting and shopping-list generation work per
recipe-ingredient row: a recipe whose rows are two copies of one
non-optional row has that ingredient counted twice in the totals, twice in
the matched count when present, twice in the missing list and twice in the
shopping list when absent. -/
theorem claim_C9_per_row (rec : Recipe) (ri : RecipeIngredient)
    (pantry expiring : Finset ℤ)
    (hrows : rec.recipe_ingredients = [ri, ri])
    (hopt : ri.optional = false) :
    (computeMatch rec pantry expiring).total_required = 2 ∧
    (ri.ingredient_id ∈ pantry →
      (computeMatch rec pantry expiring).matched_count = 2) ∧
    (ri.ingredient_id ∉ pantry →
      ((computeMatch rec pantry expiring).missing.map
          (fun ing => ing.id) = [ri.ingredient_id, ri.ingredient_id]) ∧
      ((get_shopping_list (some rec) pantry).map
        (fun sl => sl.missing_items.length)) = some 2) := by
  have hreq : requiredIngredients rec = [ri, ri] := by
    unfold requiredIngredients
    rw [hrows]
    simp [hopt]
  have hne : (requiredIngredients rec).isEmpty = false := by
    rw [hreq]
    rfl
  refine ⟨?_, ?_, ?_⟩
  · rw [computeMatch_eq_of_nonempty rec pantry expiring hne]
    dsimp only
    rw [hreq]
    rfl
  · intro hmem
    rw [computeMatch_eq_of_nonempty rec pantry expiring hne]
    dsimp only
    rw [hreq]
    simp [List.countP_cons, hmem]
  · intro hnot
    have hnot₂ : ri.ingredient.id ∉ pantry := hnot
    constructor
    · rw [computeMatch_eq_of_nonempty rec pantry expiring hne]
      dsimp only
      rw [hreq]
      simp [List.filter_cons, hnot, hnot₂, IngredientRead.model_validate,
        RecipeIngredient.ingredient_id]
    · rw [get_shopping_list_some]
      simp [hrows, List.filter_cons, hnot, hnot₂]

/-- Witness for C9: `dupRecipe` against the empty pantry. -/
theorem claim_C9_witness :
    (computeMatch dupRecipe (∅ : Finset ℤ) ∅).total_required = 2 ∧
    ((computeMatch dupRecipe (∅ : Finset ℤ) ∅).missing.map
      (fun ing => ing.id)) = [5, 5] := by
  have h := claim_C9_per_row dupRecipe (rowOf false (plainIng 5 "salt"))
    ∅ ∅ rfl rfl
  refine ⟨h.1, ?_⟩
  have h2 := (h.2.2 (by decide)).1
  simpa [RecipeIngredient.ingredient_id, rowOf, plainIng] using h2

/-! ## Claim C10: plain mode ignores expiration data -/

/-- C10.  With `prioritize_expiring = false` the ranker output does not
depend on the expiring set at all, and every returned match reports an
absent expiring-usage count. -/
theorem claim_C10_no_expiring_influence (recipes : List Recipe)
    (pantry_ingredient_ids expiring₁ expiring₂ : Finset ℤ)
    (min_match_percent : ℚ) (max_missing_ingredients : Option ℕ)
    (difficulty : Option String) (max_total_time : Option ℤ)
    (vegetarian vegan gluten_free : Bool)
    (exclude_allergens : Option (List String)) (limit : ℕ) :
    (get_recipe_recommendations recipes pantry_ingredient_ids expiring₁
        min_match_percent max_missing_ingredients difficulty max_total_time
        vegetarian vegan gluten_free exclude_allergens false limit
      = get_recipe_recommendations recipes pantry_ingredient_ids expiring₂
        min_match_percent max_missing_ingredients difficulty max_total_time
        vegetarian vegan gluten_free exclude_allergens false limit) ∧
    ∀ m ∈ get_recipe_recommendations recipes pantry_ingredient_ids
        expiring₁ min_match_percent max_missing_ingredients difficulty
        max_total_time vegetarian vegan gluten_free exclude_allergens false
        limit,
      m.uses_expiring_ingredients = none := by
  constructor
  · rfl
  · intro m hm
    obtain ⟨r, hr, he⟩ := mem_recommendations recipes pantry_ingredient_ids
      expiring₁ min_match_percent max_missing_ingredients difficulty
      max_total_time vegetarian vegan gluten_free exclude_allergens false
      limit m hm
    have hme := evalRecipe_eq_some _ _ _ _ _ _ _ _ _ _ _ _ _ he
    rw [hme, mkRecipeMatch_uses]
    rfl

/-! ## A one-recipe concrete ranker run (used by witnesses) -/

/-- A two-required-ingredient recipe of which the pantry below holds one. -/
def recipeA : Recipe :=
  { id := 2
    title := "Salad"
    description := none
    prep_time := none
    cook_time := none
    difficulty_level := none
    servings := none
    image_url := none
    recipe_ingredients :=
      [rowOf false (plainIng 1 "tomato"), rowOf false (plainIng 2 "onion")] }

/-- The match `recipeA` yields against the pantry `{1}` (50 percent). -/
def matchA : RecipeMatch :=
  mkRecipeMatch false recipeA (computeMatch recipeA ({1} : Finset ℤ) ∅)

/-- The unrounded percentage of `recipeA` against the pantry `{1}`. -/
theorem recipeA_pct :
    (computeMatch recipeA ({1} : Finset ℤ) ∅).match_percentage = 50 := by
  rw [computeMatch_eq_of_nonempty recipeA ({1} : Finset ℤ) ∅ rfl]
  dsimp only
  rw [show ((requiredIngredients recipeA).countP
      (fun ri => decide (ri.ingredient_id ∈ ({1} : Finset ℤ)))) = 1
      from by decide,
    show (requiredIngredients recipeA).length = 2 from by decide]
  norm_num

/-- The full ranker run on the one-recipe catalog `[recipeA]`. -/
theorem recipeA_run :
    get_recipe_recommendations [recipeA] ({1} : Finset ℤ) ∅ 0 none none
      none false false false none false 20 = [matchA] := by
  have he : evalRecipe ({1} : Finset ℤ) ∅ 0 none none none false false
      false none false recipeA
      = some (mkRecipeMatch false recipeA
          (computeMatch recipeA ({1} : Finset ℤ) ∅)) := by
    refine evalRecipe_some_of_ge ({1} : Finset ℤ) ∅ 0 none none none false
      false false none false recipeA rfl rfl (by decide) ?_ rfl
    rw [recipeA_pct]
    norm_num
  show (List.mergeSort (collectMatches [recipeA] ({1} : Finset ℤ) ∅ 0 none
      none none false false false none false) keyLePlain).take 20
    = [matchA]
  rw [show collectMatches [recipeA] ({1} : Finset ℤ) ∅ 0 none none none
      false false false none false = [matchA] by
    unfold collectMatches
    rw [List.filterMap_cons, he]
    rfl]
  rw [List.mergeSort_singleton]
  rfl

/-- Witness for C8: the single match of the run above partitions its two
required rows into one matched and one missing. -/
theorem claim_C8_witness :
    matchA.matched_ingredients + matchA.missing_ingredients.length
      = matchA.total_required_ingredients :=
  claim_C8_partition [recipeA] ({1} : Finset ℤ) ∅ 0 none none none false
    false false none false 20 matchA
    (by rw [recipeA_run]; exact List.mem_singleton.mpr rfl)

/-- Witness for C10: the run above is unchanged when the expiring set is
`{2}` instead of empty, and its match reports no expiring-usage count. -/
theorem claim_C10_witness :
    (get_recipe_recommendations [recipeA] ({1} : Finset ℤ)
        ({2} : Finset ℤ) 0 none none none false false false none false 20
      = get_recipe_recommendations [recipeA] ({1} : Finset ℤ)
        (∅ : Finset ℤ) 0 none none none false false false none false 20) ∧
    matchA.uses_expiring_ingredients = none := by
  constructor
  · exact (claim_C10_no_expiring_influence [recipeA] ({1} : Finset ℤ)
      ({2} : Finset ℤ) ∅ 0 none none none false false false none 20).1
  · refine (claim_C10_no_expiring_influence [recipeA] ({1} : Finset ℤ)
      ({2} : Finset ℤ) ∅ 0 none none none false false false none 20).2
      matchA ?_
    rw [(claim_C10_no_expiring_influence [recipeA] ({1} : Finset ℤ)
      ({2} : Finset ℤ) ∅ 0 none none none false false false none 20).1,
      recipeA_run]
    exact List.mem_singleton.mpr rfl

/-! ## Claim C3: sort order and truncation -/

/-- The ordering claimed for expiring-priority mode: expiring-usage count
descending, then match percentage descending, then title ascending
(code-point comparison on titles, the natural string order). -/
def specOrderExpiring (m₁ m₂ : RecipeMatch) : Prop :=
  m₂.uses_expiring_ingredients.getD 0 < m₁.uses_expiring_ingredients.getD 0
    ∨ (m₁.uses_expiring_ingredients.getD 0
          = m₂.uses_expiring_ingredients.getD 0 ∧
        (m₂.match_percentage < m₁.match_percentage ∨
          (m₁.match_percentage = m₂.match_percentage ∧
            m₁.title ≤ m₂.title)))

/-- The ordering claimed for plain mode: match percentage descending, then
title ascending. -/
def specOrderPlain (m₁ m₂ : RecipeMatch) : Prop :=
  m₂.match_percentage < m₁.match_percentage ∨
    (m₁.match_percentage = m₂.match_percentage ∧ m₁.title ≤ m₂.title)

/-- The boolean key comparison of expiring-priority mode matches the
claimed ordering. -/
theorem keyLeExpiring_iff (m₁ m₂ : RecipeMatch) :
    keyLeExpiring m₁ m₂ = true ↔ specOrderExpiring m₁ m₂ := by
  unfold keyLeExpiring rankKeyExpiring specOrderExpiring
  rw [decide_eq_true_eq]
  simp only [Prod.Lex.le_iff]
  simp [neg_lt_neg_iff, neg_inj, Nat.cast_lt, Nat.cast_inj]

/-- The boolean key comparison of plain mode matches the claimed
ordering. -/
theorem keyLePlain_iff (m₁ m₂ : RecipeMatch) :
    keyLePlain m₁ m₂ = true ↔ specOrderPlain m₁ m₂ := by
  unfold keyLePlain rankKeyPlain specOrderPlain
  rw [decide_eq_true_eq]
  simp only [Prod.Lex.le_iff]
  simp [neg_lt_neg_iff, neg_inj]

/-- Transitivity of the expiring-mode key comparison. -/
theorem keyLeExpiring_trans (a b c : RecipeMatch)
    (hab : keyLeExpiring a b) (hbc : keyLeExpiring b c) :
    keyLeExpiring a c := by
  unfold keyLeExpiring at hab hbc ⊢
  rw [decide_eq_true_eq] at hab hbc ⊢
  exact le_trans hab hbc

/-- Totality of the expiring-mode key comparison. -/
theorem keyLeExpiring_total (a b : RecipeMatch) :
    keyLeExpiring a b || keyLeExpiring b a := by
  unfold keyLeExpiring
  rcases le_total (rankKeyExpiring a) (rankKeyExpiring b) with h | h <;>
    simp [h]

/-- Transitivity of the plain-mode key comparison. -/
theorem keyLePlain_trans (a b c : RecipeMatch)
    (hab : keyLePlain a b) (hbc : keyLePlain b c) : keyLePlain a c := by
  unfold keyLePlain at hab hbc ⊢
  rw [decide_eq_true_eq] at hab hbc ⊢
  exact le_trans hab hbc

/-- Totality of the plain-mode key comparison. -/
theorem keyLePlain_total (a b : RecipeMatch) :
    keyLePlain a b || keyLePlain b a := by
  unfold keyLePlain
  rcases le_total (rankKeyPlain a) (rankKeyPlain b) with h | h <;> simp [h]

/-- C3.  In each mode, the ranker output is the truncation to `limit` of a
permutation of the collected match list sorted by the claimed ordering:
expiring-usage descending, then percentage descending, then title
ascending when prioritizing expiring ingredients; percentage descending,
then title ascending otherwise. -/
theorem claim_C3_sorted_truncated (recipes : List Recipe)
    (pantry_ingredient_ids expiring : Finset ℤ) (min_match_percent : ℚ)
    (max_missing_ingredients : Option ℕ) (difficulty : Option String)
    (max_total_time : Option ℤ) (vegetarian vegan gluten_free : Bool)
    (exclude_allergens : Option (List String)) (limit : ℕ) :
    (∃ full : List RecipeMatch,
      full.Perm (collectMatches recipes pantry_ingredient_ids expiring
        min_match_percent max_missing_ingredients difficulty max_total_time
        vegetarian vegan gluten_free exclude_allergens true) ∧
      full.Pairwise specOrderExpiring ∧
      get_recipe_recommendations recipes pantry_ingredient_ids expiring
        min_match_percent max_missing_ingredients difficulty max_total_time
        vegetarian vegan gluten_free exclude_allergens true limit
        = full.take limit) ∧
    (∃ full : List RecipeMatch,
      full.Perm (collectMatches recipes pantry_ingredient_ids ∅
        min_match_percent max_missing_ingredients difficulty max_total_time
        vegetarian vegan gluten_free exclude_allergens false) ∧
      full.Pairwise specOrderPlain ∧
      get_recipe_recommendations recipes pantry_ingredient_ids expiring
        min_match_percent max_missing_ingredients difficulty max_total_time
        vegetarian vegan gluten_free exclude_allergens false limit
        = full.take limit) := by
  constructor
  · refine ⟨(collectMatches recipes pantry_ingredient_ids expiring
      min_match_percent max_missing_ingredients difficulty max_total_time
      vegetarian vegan gluten_free exclude_allergens true).mergeSort
        keyLeExpiring, List.mergeSort_perm _ _, ?_, rfl⟩
    have hp := List.sorted_mergeSort
      keyLeExpiring_trans keyLeExpiring_total
      (collectMatches recipes pantry_ingredient_ids expiring
        min_match_percent max_missing_ingredients difficulty max_total_time
        vegetarian vegan gluten_free exclude_allergens true)
    exact hp.imp (fun hab => (keyLeExpiring_iff _ _).mp hab)
  · refine ⟨(collectMatches recipes pantry_ingredient_ids ∅
      min_match_percent max_missing_ingredients difficulty max_total_time
      vegetarian vegan gluten_free exclude_allergens false).mergeSort
        keyLePlain, List.mergeSort_perm _ _, ?_, rfl⟩
    have hp := List.sorted_mergeSort
      keyLePlain_trans keyLePlain_total
      (collectMatches recipes pantry_ingredient_ids ∅
        min_match_percent max_missing_ingredients difficulty max_total_time
        vegetarian vegan gluten_free exclude_allergens false)
    exact hp.imp (fun hab => (keyLePlain_iff _ _).mp hab)

end PantryChef
